import Mathlib

/-!
Verification of the StudyMate AI core (`src/pages/study.py`): the structured-text
parsers (`parse_videos`, `parse_projects`, `parse_quiz`), the multi-agent pipeline
orchestrator (`run_pipeline` and the generate-click handler in `show()`), and the
quiz grading logic (the submit handler in `show()`).

Modelling conventions:
* Python strings are modelled as `List Char` (with `String.data` at the API
  boundary).  `str.split(sep)`, `str.replace`, `str.strip`, `str.startswith`
  and the substring test `in` are modelled by executable functions below with
  Python's semantics (leftmost, non-overlapping occurrences).  Whitespace and
  digits are modelled as their ASCII sets (the agent texts the parsers target
  are ASCII-formatted templates).
* Python's regular-expression uses are modelled directly: `re.split(r'\[\d+\]', s)`
  splits on maximal bracketed digit runs; the quiz/exercise `re.findall` templates
  are modelled by scanning for the leftmost match position and resolving each
  non-greedy group at the first occurrence of its delimiter, which is the
  behaviour of the Python patterns on template-shaped text.
* Python operations that can raise (`parts[1]`, `url.split(..)[1]`, an agent
  call failing) are modelled in `Option`/`Except`, so "never raises" is a
  provable statement (`isSome`) rather than an assumption.
* Python floats are modelled as exact rationals; `round(x, 1)` is modelled by
  round-half-to-even at one decimal (`pyRound1`), matching Python's `round`.
* Loops whose Python counterpart advances through the string are implemented
  with an explicit fuel equal to the string length; every iteration consumes at
  least one character, so this fuel is sufficient.
-/

/-- ASCII whitespace set of Python's `str.strip` / `\s`. -/
def isPySpace (c : Char) : Bool :=
  c = ' ' || c = '\t' || c = '\n' || c = '\r' || c = '\x0b' || c = '\x0c'

/-- Python `str.strip()`: remove leading and trailing whitespace. -/
def pyStrip (s : List Char) : List Char :=
  ((s.dropWhile isPySpace).reverse.dropWhile isPySpace).reverse

/-- Locate the leftmost occurrence of `sep` in `s`; return the part before it
and the part after it.  `none` when `sep` does not occur (for nonempty `sep`). -/
def splitFirst (sep : List Char) : List Char → Option (List Char × List Char)
  | [] => if sep.isEmpty then some ([], []) else none
  | c :: rest =>
      if sep.isPrefixOf (c :: rest) then some ([], (c :: rest).drop sep.length)
      else
        match splitFirst sep rest with
        | some (pre, post) => some (c :: pre, post)
        | none => none

/-- Repeatedly split at the leftmost position located by `find`.  The fuel is
instantiated with the string length; one separator is consumed per step. -/
def splitLoop (find : List Char → Option (List Char × List Char)) :
    Nat → List Char → List (List Char)
  | 0, s => [s]
  | fuel + 1, s =>
      match find s with
      | none => [s]
      | some (pre, post) => pre :: splitLoop find fuel post

/-- Python `s.split(sep)` for a fixed separator string (Python raises on an
empty separator; that case is never exercised by the source). -/
def splitOnSub (sep s : List Char) : List (List Char) :=
  match sep with
  | [] => [s]
  | _ :: _ => splitLoop (splitFirst sep) s.length s

/-- Python `s.replace(old, new)`: replace every occurrence, left to right. -/
def replaceSub (old new s : List Char) : List Char :=
  List.intercalate new (splitOnSub old s)

/-- Python's substring test `sub in s`. -/
def containsSub (sub s : List Char) : Bool :=
  (splitFirst sub s).isSome

/-- Value of a digit run, as produced by Python `int` on a `\d+` match. -/
def digitsToNat (ds : List Char) : Nat :=
  ds.foldl (fun n c => 10 * n + (c.toNat - '0'.toNat)) 0

/-- Leftmost match of the pattern `\[\d+\]` (as used by
`re.split(r'\[\d+\]', ...)`): a `[`, a nonempty maximal digit run, then `]`. -/
def findBracket : List Char → Option (List Char × List Char)
  | [] => none
  | c :: rest =>
      if c = '[' then
        match rest.takeWhile Char.isDigit, rest.dropWhile Char.isDigit with
        | _ :: _, ']' :: rest2 => some ([], rest2)
        | _, _ => Option.map (fun p => (c :: p.1, p.2)) (findBracket rest)
      else Option.map (fun p => (c :: p.1, p.2)) (findBracket rest)

/-- Python `re.split(r'\[\d+\]', s)`. -/
def splitBrNum (s : List Char) : List (List Char) :=
  splitLoop findBracket s.length s

/-- Python dict lookup `d.get(k)` for the session answer map. -/
def dictGet (d : List (String × String)) (k : String) : Option String :=
  (d.find? (fun p => p.1 == k)).map (fun p => p.2)

/-- Round-half-to-even to an integer, Python's `round` on an exact value. -/
def pyRoundHalfEven (q : ℚ) : ℤ :=
  let n := ⌊q⌋
  let frac := q - n
  if frac < 1 / 2 then n
  else if 1 / 2 < frac then n + 1
  else if n % 2 = 0 then n else n + 1

/-- Python `round(x, 1)` modelled on exact rationals. -/
def pyRound1 (q : ℚ) : ℚ :=
  (pyRoundHalfEven (q * 10) : ℚ) / 10

/- ### Data model (records produced by the parsers and the pipeline) -/

/-- Video record built by `parse_videos`. -/
structure PVideo where
  title : List Char
  url : List Char
  video_id : List Char
  deriving DecidableEq

/-- Project record built by `parse_projects`. -/
structure ProjectEntry where
  title : List Char
  repo_name : List Char
  creator : List Char
  url : List Char
  description : List Char
  deriving DecidableEq

/-- Quiz question record built by `parse_quiz` (`number` is a Python `int`). -/
structure QuizQuestion where
  number : ℤ
  question : List Char
  optA : List Char
  optB : List Char
  optC : List Char
  optD : List Char
  correct : Char
  deriving DecidableEq

/-- Exercise record built by `parse_quiz`. -/
structure Exercise where
  number : ℤ
  text : List Char
  deriving DecidableEq

/-- Result of `parse_quiz`. -/
structure QuizData where
  questions : List QuizQuestion
  exercises : List Exercise
  deriving DecidableEq

/-- Result of `parse_projects` (the dict with `github` and `docker` keys). -/
structure ProjectsResult where
  github : List ProjectEntry
  docker : List ProjectEntry
  deriving DecidableEq

/- ### parse_videos -/

/-- Video-id derivation of `parse_videos` (study.py lines 155-159).  Indexing
`split(..)[1]` is fallible in Python and therefore lands in `Option`. -/
def extract_video_id (url : List Char) : Option (List Char) :=
  if containsSub ("youtube.com/watch?v=".data) url then
    match (splitOnSub ("watch?v=".data) url)[1]? with
    | none => none
    | some t => (splitOnSub ("&".data) t)[0]?
  else if containsSub ("youtu.be/".data) url then
    match (splitOnSub ("youtu.be/".data) url)[1]? with
    | none => none
    | some t => (splitOnSub ("?".data) t)[0]?
  else some []

/-- Per-entry body of the `parse_videos` loop: entries with fewer than two
lines are dropped (inner `none`), otherwise title is line 0 and url is line 1,
both stripped. -/
def videoOfEntry (entry : List Char) : Option (Option PVideo) :=
  match splitOnSub ("\n".data) (pyStrip entry) with
  | l0 :: l1 :: _ =>
      match extract_video_id (pyStrip l1) with
      | none => none
      | some vid => some (some { title := pyStrip l0, url := pyStrip l1, video_id := vid })
  | _ => some none

/-- Python `parse_videos` (study.py lines 145-167). -/
def parse_videos (s : String) : Option (List PVideo) :=
  ((splitBrNum s.data).drop 1).foldlM
    (fun acc entry =>
      match videoOfEntry entry with
      | none => none
      | some none => some acc
      | some (some v) => some (acc ++ [v]))
    []

/- ### parse_projects -/

/-- Section-level github label of `parse_projects` (line 97). -/
def sectionIsGithub (sec : List Char) : Bool :=
  containsSub ("GitHub".data) sec || containsSub ("github.com".data) sec

/-- Section-level docker label of `parse_projects` (line 98). -/
def sectionIsDocker (sec : List Char) : Bool :=
  containsSub ("DockerHub".data) sec || containsSub ("hub.docker.com".data) sec ||
    containsSub ("Docker".data) sec

/-- Title/url/description extraction of one project entry (lines 103-113);
`none` when the entry has fewer than two lines and is dropped.  Later
`URL:`/`Note:` lines overwrite earlier ones, as in the Python loop. -/
def entryFields (entry : List Char) : Option (List Char × List Char × List Char) :=
  match splitOnSub ("\n".data) (pyStrip entry) with
  | l0 :: l1 :: ls =>
      let (url, desc) := (l1 :: ls).foldl
        (fun (ud : List Char × List Char) line =>
          if ("URL:".data).isPrefixOf line then
            (pyStrip (replaceSub ("URL:".data) [] line), ud.2)
          else if ("Note:".data).isPrefixOf line then
            (ud.1, pyStrip (replaceSub ("Note:".data) [] line))
          else ud)
        ([], [])
      some (pyStrip l0, url, desc)
  | _ => none

/-- Repo-name/creator derivation (lines 115-124); list indexing in `Option`. -/
def deriveRepo (title url : List Char) : Option (List Char × List Char) :=
  if containsSub ("github.com".data) url then
    let parts := splitOnSub ("github.com/".data) url
    if parts.length > 1 then
      match parts[1]? with
      | none => none
      | some p1 =>
        let path := splitOnSub ("/".data) p1
        if path.length ≥ 2 then
          match path[0]?, path[1]? with
          | some creator, some repo => some (repo, creator)
          | _, _ => none
        else some (title, "Unknown".data)
    else some (title, "Unknown".data)
  else some (title, "Unknown".data)

/-- Classification chain of lines 134-137: `some true` appends to the github
list, `some false` to the docker list, `none` drops the entry. -/
def classifyTag (isG isD : Bool) (url : List Char) : Option Bool :=
  if isG || containsSub ("github.com".data) url then some true
  else if isD || containsSub ("hub.docker.com".data) url then some false
  else none

/-- One section of `parse_projects`: label flags, entry split, entry loop. -/
def processSection (sec : List Char) : Option (List ProjectEntry × List ProjectEntry) :=
  let isG := sectionIsGithub sec
  let isD := sectionIsDocker sec
  ((splitBrNum sec).drop 1).foldlM
    (fun (acc : List ProjectEntry × List ProjectEntry) entry =>
      match entryFields entry with
      | none => some acc
      | some (title, url, desc) =>
        match deriveRepo title url with
        | none => none
        | some (repo, creator) =>
          let p : ProjectEntry :=
            { title := title, repo_name := repo, creator := creator,
              url := url, description := desc }
          match classifyTag isG isD url with
          | some true => some (acc.1 ++ [p], acc.2)
          | some false => some (acc.1, acc.2 ++ [p])
          | none => some acc)
    ([], [])

/-- Python `parse_projects` (study.py lines 89-142). -/
def parse_projects (s : String) : Option ProjectsResult :=
  ((splitOnSub ("---------------------".data) s.data).foldlM
    (fun (acc : List ProjectEntry × List ProjectEntry) sec =>
      (processSection sec).map (fun gd => (acc.1 ++ gd.1, acc.2 ++ gd.2)))
    ([], [])).map
    (fun gd => { github := gd.1, docker := gd.2 })

/- ### parse_quiz -/

/-- Match of the question template
`Q(\d+):\s*(.*?)\nA\)(.*?)\nB\)(.*?)\nC\)(.*?)\nD\)(.*?)\nCorrect answer:\s*([A-D])`
at the head of `s`: each non-greedy group ends at the first occurrence of the
following delimiter.  Returns the question and the remainder after the match. -/
def matchQuestionAt (s : List Char) : Option (QuizQuestion × List Char) :=
  match s with
  | 'Q' :: r1 =>
    (match r1.takeWhile Char.isDigit, r1.dropWhile Char.isDigit with
     | dh :: dt, ':' :: r3 =>
       (match splitFirst ("\nA)".data) r3 with
        | none => none
        | some (qRaw, rA) =>
          match splitFirst ("\nB)".data) rA with
          | none => none
          | some (aRaw, rB) =>
            match splitFirst ("\nC)".data) rB with
            | none => none
            | some (bRaw, rC) =>
              match splitFirst ("\nD)".data) rC with
              | none => none
              | some (cRaw, rD) =>
                match splitFirst ("\nCorrect answer:".data) rD with
                | none => none
                | some (dRaw, rCor) =>
                  match rCor.dropWhile isPySpace with
                  | c :: rem =>
                    if c = 'A' || c = 'B' || c = 'C' || c = 'D' then
                      some ({ number := (digitsToNat (dh :: dt) : ℤ),
                              question := pyStrip qRaw,
                              optA := pyStrip aRaw, optB := pyStrip bRaw,
                              optC := pyStrip cRaw, optD := pyStrip dRaw,
                              correct := c }, rem)
                    else none
                  | [] => none)
     | _, _ => none)
  | _ => none

/-- Start-of-exercise test for the lookahead `(?=E\d+:|$)`. -/
def isExStartB (l : List Char) : Bool :=
  match l with
  | 'E' :: t =>
      (match t.takeWhile Char.isDigit, t.dropWhile Char.isDigit with
       | _ :: _, ':' :: _ => true
       | _, _ => false)
  | _ => false

/-- Leftmost position in `s` where an `E\d+:` header starts; returns the text
before it and the suffix from it. -/
def findExStart : List Char → Option (List Char × List Char)
  | [] => none
  | c :: rest =>
      if isExStartB (c :: rest) then some ([], c :: rest)
      else Option.map (fun p => (c :: p.1, p.2)) (findExStart rest)

/-- Match of the exercise template `E(\d+):\s*(.*?)(?=E\d+:|$)` at the head of
`s`; the remainder is the (zero-width) lookahead position. -/
def matchExerciseAt (s : List Char) : Option (Exercise × List Char) :=
  match s with
  | 'E' :: r1 =>
    (match r1.takeWhile Char.isDigit, r1.dropWhile Char.isDigit with
     | dh :: dt, ':' :: r3 =>
       (match findExStart r3 with
        | some (raw, rem) =>
            some ({ number := (digitsToNat (dh :: dt) : ℤ), text := pyStrip raw }, rem)
        | none =>
            some ({ number := (digitsToNat (dh :: dt) : ℤ), text := pyStrip r3 }, []))
     | _, _ => none)
  | _ => none

/-- The `re.findall` scan: try a match at every position, left to right,
resuming after each match.  Fuel is the string length; a successful match
consumes at least one character and a failure advances one character. -/
def scanLoop {α : Type} (m : List Char → Option (α × List Char)) :
    Nat → List Char → List α
  | 0, _ => []
  | _ + 1, [] => []
  | fuel + 1, c :: rest =>
      match m (c :: rest) with
      | some (a, rem) => a :: scanLoop m fuel rem
      | none => scanLoop m fuel rest

/-- All question matches of the quiz section, in source order. -/
def scanQuestions (s : List Char) : List QuizQuestion :=
  scanLoop matchQuestionAt s.length s

/-- All exercise matches of the exercises section, in source order. -/
def scanExercises (s : List Char) : List Exercise :=
  scanLoop matchExerciseAt s.length s

/-- Python `parse_quiz` (study.py lines 170-207).  `parts[0]` is a fallible
index in Python and is modelled as such. -/
def parse_quiz (s : String) : Option QuizData :=
  let parts := splitOnSub ("[EXERCISES]".data) s.data
  match parts[0]? with
  | none => none
  | some p0 =>
    let quizSection := pyStrip (replaceSub ("[QUIZ]".data) [] p0)
    match (if parts.length > 1 then parts[1]?.map pyStrip else some []) with
    | none => none
    | some exSection =>
        some { questions := scanQuestions quizSection,
               exercises := scanExercises exSection }

/- ### Pipeline orchestrator and session state -/

/-- Opaque error raised by a failing agent call (Python exception). -/
def AgentErr : Type := String

/-- The injected agent functions imported by study.py.  Each is a black box
that either returns text or raises (models `get_llm`, `a1_everything`,
`a2_cleaner`, `a3_adapter`, `a4_summarizer`, `a5_collector_videos`,
`a6_relations_projects`, `a7_ai_companion_quiz`, `a8_examiner`).  `Llm` is the
opaque model handle, `File` the opaque uploaded file. -/
structure Agents (Llm File : Type) where
  get_llm : String → Except AgentErr Llm
  a1_everything : String → String → Except AgentErr String
  a2_cleaner : Llm → String → String → Except AgentErr String
  a3_adapter : File → Except AgentErr String
  a4_summarizer : Llm → String → Bool → Except AgentErr String
  a5_collector_videos : String → String → Except AgentErr String
  a6_relations_projects : String → String → Except AgentErr String
  a7_ai_companion_quiz : Llm → String → Except AgentErr String
  a8_examiner : String → String → Except AgentErr String

/-- The dict returned by `run_pipeline` (study.py lines 249-258). -/
structure PipelineOutput where
  a1_output : String
  a2_output : String
  a3_output : String
  summary : String
  videos : String
  projects : String
  quizzes : String
  exams : String
  deriving DecidableEq

/-- Python `run_pipeline` (study.py lines 210-258): ingestion branch, then the
always-run summarizer, then the four help-type-gated agents in order (a field
stays `""` when its help type is not selected).  Written as an explicit
`Except.bind` chain: every agent call can raise, and a raise aborts the run. -/
def run_pipeline {Llm File : Type} (A : Agents Llm File)
    (subject chapter : String) (help_types : List String) (guide_mode : Bool)
    (uploaded_file : Option File) (engine_code : String) :
    Except AgentErr PipelineOutput :=
  Except.bind (A.get_llm engine_code) fun llm =>
  Except.bind
    (match uploaded_file with
     | some f =>
         Except.bind (A.a3_adapter f) fun t => Except.ok ("", "", t, t)
     | none =>
         Except.bind (A.a1_everything subject chapter) fun t1 =>
         Except.bind (A.a2_cleaner llm subject t1) fun t2 =>
         Except.ok (t1, t2, "", t2)) fun x =>
  match x with
  | (a1o, a2o, a3o, context_text) =>
    Except.bind (A.a4_summarizer llm context_text guide_mode) fun summary =>
    Except.bind
      (if "Videos" ∈ help_types then A.a5_collector_videos subject chapter
       else Except.ok "") fun videos =>
    Except.bind
      (if "Related Projects" ∈ help_types then A.a6_relations_projects subject chapter
       else Except.ok "") fun projects =>
    Except.bind
      (if "Quizzes/Exercises" ∈ help_types then A.a7_ai_companion_quiz llm summary
       else Except.ok "") fun quizzes =>
    Except.bind
      (if "Exams" ∈ help_types then A.a8_examiner subject chapter
       else Except.ok "") fun exams =>
    Except.ok { a1_output := a1o, a2_output := a2o, a3_output := a3o, summary := summary,
                videos := videos, projects := projects, quizzes := quizzes, exams := exams }

/-- History record appended on each successful run (study.py lines 458-464). -/
structure HistoryEntry where
  timestamp : String
  subject : String
  chapter : String
  engine : String
  help_types : List String
  deriving DecidableEq

/-- The streamlit session state owned by the study page (study.py lines 45-65).
The answer map is an association list mimicking the Python dict keyed by
`"q_<n>"` strings. -/
structure SessionState where
  mas_output : Option PipelineOutput
  summary : String
  videos : String
  projects : String
  quizzes : String
  exams : String
  roadmap : String
  engine_code : String
  help_types : List String
  study_history : List HistoryEntry
  quiz_score : ℚ
  quiz_answers : List (String × String)
  quiz_submitted : Bool
  selected_subject : String
  selected_chapter : String
  deriving DecidableEq

/-- The defaults installed by `init_session_state` (study.py lines 45-65). -/
def initialSessionState : SessionState where
  mas_output := none
  summary := ""
  videos := ""
  projects := ""
  quizzes := ""
  exams := ""
  roadmap := ""
  engine_code := "deepseek"
  help_types := ["Summarize (Default)", "Quizzes/Exercises"]
  study_history := []
  quiz_score := 0
  quiz_answers := []
  quiz_submitted := false
  selected_subject := "Mathematics"
  selected_chapter := ""

/-- The generate-button handler in `show()` (study.py lines 429-469): guard on
blank subject/chapter and missing API key, run the pipeline inside
`try`/`except`, and only on success replace the outputs, reset the quiz
session and append one history entry.  `api_ok` is the `check_api_key` result
(an environment lookup) and `now` the formatted timestamp. -/
def generate_click {Llm File : Type} (A : Agents Llm File)
    (subject chapter : String) (help_types : List String) (guide_mode : Bool)
    (uploaded_file : Option File) (engine_code engine_label : String)
    (api_ok : Bool) (now : String) (st : SessionState) : SessionState :=
  if (pyStrip subject.data).isEmpty || (pyStrip chapter.data).isEmpty then st
  else if !api_ok then st
  else
    match run_pipeline A subject chapter help_types guide_mode uploaded_file engine_code with
    | .error _ => st
    | .ok output =>
        { st with
          mas_output := some output
          summary := output.summary
          videos := output.videos
          projects := output.projects
          quizzes := output.quizzes
          exams := output.exams
          roadmap := ""
          quiz_score := 0
          quiz_answers := []
          quiz_submitted := false
          study_history := st.study_history ++
            [{ timestamp := now, subject := subject, chapter := chapter,
               engine := engine_label, help_types := help_types }] }

/-- Answer-map key `f"q_{q_num}"` (study.py lines 569 and 625). -/
def qKey (n : ℤ) : String := "q_" ++ toString n

/-- The per-question weight `max_score / total_questions` with `max_score = 20`
(study.py lines 546-548). -/
def points_per_question (total : ℕ) : ℚ :=
  if total > 0 then 20 / total else 0

/-- The submit-answers handler in `show()` (study.py lines 621-631): only
reachable while not submitted; sums the per-question weight over questions
whose stored answer equals the correct option, rounds to one decimal, and
marks the quiz submitted. -/
def submit_click (questions : List QuizQuestion) (st : SessionState) : SessionState :=
  if st.quiz_submitted then st
  else
    let ppq := points_per_question questions.length
    let score := questions.foldl
      (fun s q =>
        if dictGet st.quiz_answers (qKey q.number) = some (String.mk [q.correct]) then s + ppq
        else s)
      0
    { st with quiz_score := pyRound1 score, quiz_submitted := true }

/-- The retake handler in `show()` (study.py lines 634-638). -/
def retake_click (st : SessionState) : SessionState :=
  if st.quiz_submitted then
    { st with quiz_answers := [], quiz_submitted := false, quiz_score := 0 }
  else st

/- ### Derived notions and concrete fixtures used by the statements -/

/-- Number of questions whose stored answer equals their correct option. -/
def correctCount (questions : List QuizQuestion) (answers : List (String × String)) : ℕ :=
  questions.countP
    (fun q => decide (dictGet answers (qKey q.number) = some (String.mk [q.correct])))

/-- Title and url of a video entry as the specification words describe the
amended behaviour: first line and second line of the block, both trimmed;
blocks with fewer than two lines are dropped. -/
def entryTitleUrl (entry : List Char) : Option (List Char × List Char) :=
  match splitOnSub ("\n".data) (pyStrip entry) with
  | l0 :: l1 :: _ => some (pyStrip l0, pyStrip l1)
  | _ => none

/-- Second non-empty line of a video entry block, the url the original claim
predicts. -/
def secondNonEmptyLine (entry : List Char) : Option (List Char) :=
  ((splitOnSub ("\n".data) (pyStrip entry)).filter (fun l => !l.isEmpty))[1]?

/-- Agents that always succeed; `a5_collector_videos` returns the empty
string, a legal agent output ("requested but returned nothing"). -/
def okAgents : Agents Unit Unit where
  get_llm := fun _ => .ok ()
  a1_everything := fun _ _ => .ok "raw"
  a2_cleaner := fun _ _ _ => .ok "clean"
  a3_adapter := fun _ => .ok "doc"
  a4_summarizer := fun _ _ _ => .ok "sum"
  a5_collector_videos := fun _ _ => .ok ""
  a6_relations_projects := fun _ _ => .ok "proj"
  a7_ai_companion_quiz := fun _ _ => .ok "quiz"
  a8_examiner := fun _ _ => .ok "exam"

/-- Agents whose model-handle resolution fails, so every run aborts. -/
def failAgents : Agents Unit Unit where
  get_llm := fun _ => .error "boom"
  a1_everything := fun _ _ => .error "boom"
  a2_cleaner := fun _ _ _ => .error "boom"
  a3_adapter := fun _ => .error "boom"
  a4_summarizer := fun _ _ _ => .error "boom"
  a5_collector_videos := fun _ _ => .error "boom"
  a6_relations_projects := fun _ _ => .error "boom"
  a7_ai_companion_quiz := fun _ _ => .error "boom"
  a8_examiner := fun _ _ => .error "boom"

/-- Pipeline output of `okAgents` on an uploaded document with no help types. -/
def uploadRunOutput : PipelineOutput where
  a1_output := ""
  a2_output := ""
  a3_output := "doc"
  summary := "sum"
  videos := ""
  projects := ""
  quizzes := ""
  exams := ""

/-- Pipeline output of `okAgents` on a search run requesting only videos. -/
def videoRunOutput : PipelineOutput where
  a1_output := "raw"
  a2_output := "clean"
  a3_output := ""
  summary := "sum"
  videos := ""
  projects := ""
  quizzes := ""
  exams := ""

/-- A one-question quiz used to witness the grading theorems. -/
def oneQuestion : QuizQuestion where
  number := 1
  question := "What is 2+2?".data
  optA := "3".data
  optB := "4".data
  optC := "5".data
  optD := "6".data
  correct := 'B'

/-- Session state with the single correct answer selected. -/
def answeredState : SessionState :=
  { initialSessionState with quiz_answers := [("q_1", "B")] }

/- ### Helper lemmas about the string primitives -/

/-- A split always yields at least one part. -/
theorem splitLoop_ne_nil (find : List Char → Option (List Char × List Char)) :
    ∀ (fuel : Nat) (s : List Char), splitLoop find fuel s ≠ [] := by
  intro fuel s
  cases fuel with
  | zero => simp [splitLoop]
  | succ n =>
      rw [splitLoop]
      cases h : find s with
      | none => simp
      | some p => cases p; simp

/-- Python `split` always yields at least one part. -/
theorem splitOnSub_ne_nil (sep s : List Char) : splitOnSub sep s ≠ [] := by
  cases sep with
  | nil => simp [splitOnSub]
  | cons c cs => simpa [splitOnSub] using splitLoop_ne_nil _ _ _

/-- `splitFirst` succeeds exactly when the separator occurs as a contiguous
substring. -/
theorem splitFirst_isSome_iff (sep s : List Char) :
    (splitFirst sep s).isSome = true ↔ sep <:+: s := by
  induction s with
  | nil =>
      cases sep with
      | nil => simp [splitFirst]
      | cons c cs => simp [splitFirst, List.isEmpty]
  | cons c rest ih =>
      rw [splitFirst]
      by_cases hp : sep.isPrefixOf (c :: rest) = true
      · rw [if_pos hp]
        simpa using (List.isPrefixOf_iff_prefix.mp hp).isInfix
      · rw [if_neg hp]
        have hnp : ¬ sep <+: (c :: rest) := fun h => hp (List.isPrefixOf_iff_prefix.mpr h)
        constructor
        · intro h
          cases hsf : splitFirst sep rest with
          | none => rw [hsf] at h; simp at h
          | some p => exact List.infix_cons (ih.mp (by rw [hsf]; simp))
        · intro h
          rcases List.infix_cons_iff.mp h with h1 | h2
          · exact absurd h1 hnp
          · have hs := ih.mpr h2
            cases hsf : splitFirst sep rest with
            | none => rw [hsf] at hs; simp at hs
            | some p => cases p; simp

/-- The substring test agrees with the mathematical infix relation. -/
theorem containsSub_iff (sub s : List Char) :
    containsSub sub s = true ↔ sub <:+: s := by
  simpa [containsSub] using splitFirst_isSome_iff sub s

/-- A string containing a nonempty separator splits into at least two parts. -/
theorem splitOnSub_length_ge2 (sep s : List Char) (hne : sep ≠ [])
    (h : containsSub sep s = true) : 2 ≤ (splitOnSub sep s).length := by
  obtain ⟨p, hp⟩ := Option.isSome_iff_exists.mp (by simpa [containsSub] using h)
  cases sep with
  | nil => exact absurd rfl hne
  | cons a as =>
    cases s with
    | nil => rw [splitFirst] at hp; simp [List.isEmpty] at hp
    | cons b bs =>
      show 2 ≤ (splitLoop (splitFirst (a :: as)) (b :: bs).length (b :: bs)).length
      obtain ⟨pre, post⟩ := p
      rw [List.length_cons, splitLoop, hp]
      have hpos : 0 < (splitLoop (splitFirst (a :: as)) bs.length post).length :=
        List.length_pos.mpr (splitLoop_ne_nil _ _ _)
      simp only [List.length_cons]
      omega

/-- List indexing inside the bounds check succeeds. -/
theorem getElem?_isSome_of_lt {α : Type} {l : List α} {i : ℕ} (h : i < l.length) :
    l[i]?.isSome = true := by
  rw [List.getElem?_eq_getElem h]; rfl

/-- The video-id derivation never fails: the guarding substring checks imply
that the indexed split parts exist. -/
theorem extract_video_id_isSome (url : List Char) :
    (extract_video_id url).isSome = true := by
  unfold extract_video_id
  split
  · next h =>
    have hshort : ("watch?v=".data : List Char) <:+: url :=
      List.IsInfix.trans ((containsSub_iff _ _).mp (by rfl))
        ((containsSub_iff _ _).mp h)
    have hlen : 2 ≤ (splitOnSub ("watch?v=".data) url).length :=
      splitOnSub_length_ge2 _ _ (by simp) ((containsSub_iff _ _).mpr hshort)
    obtain ⟨t, ht⟩ := Option.isSome_iff_exists.mp
      (getElem?_isSome_of_lt (show 1 < (splitOnSub ("watch?v=".data) url).length by omega))
    rw [ht]
    exact getElem?_isSome_of_lt
      (List.length_pos.mpr (splitOnSub_ne_nil _ _))
  · split
    · next h =>
      have hlen : 2 ≤ (splitOnSub ("youtu.be/".data) url).length :=
        splitOnSub_length_ge2 _ _ (by simp) h
      obtain ⟨t, ht⟩ := Option.isSome_iff_exists.mp
        (getElem?_isSome_of_lt (show 1 < (splitOnSub ("youtu.be/".data) url).length by omega))
      rw [ht]
      exact getElem?_isSome_of_lt
        (List.length_pos.mpr (splitOnSub_ne_nil _ _))
    · simp

/-- Each entry of the video loop is processed without an exception. -/
theorem videoOfEntry_isSome (entry : List Char) :
    (videoOfEntry entry).isSome = true := by
  unfold videoOfEntry
  split
  · next l0 l1 ls _ =>
    obtain ⟨vid, hv⟩ := Option.isSome_iff_exists.mp (extract_video_id_isSome (pyStrip l1))
    rw [hv]
    simp
  · simp

/-- An `Option`-valued fold succeeds when every step succeeds. -/
theorem foldlM_option_isSome {α β : Type} (f : β → α → Option β) :
    ∀ (l : List α) (init : β), (∀ b a, a ∈ l → (f b a).isSome = true) →
      (List.foldlM f init l).isSome = true := by
  intro l
  induction l with
  | nil => intro init _; simp [List.foldlM]
  | cons a as ih =>
      intro init h
      rw [List.foldlM_cons]
      obtain ⟨b', hb⟩ := Option.isSome_iff_exists.mp (h init a (by simp))
      rw [hb]
      simpa using ih b' (fun b x hx => h b x (by simp [hx]))

/-- The repo-name/creator derivation never fails: every index is guarded. -/
theorem deriveRepo_isSome (title url : List Char) :
    (deriveRepo title url).isSome = true := by
  by_cases h1 : containsSub ("github.com".data) url = true
  · by_cases h2 : (splitOnSub ("github.com/".data) url).length > 1
    · obtain ⟨p1, hp1⟩ := Option.isSome_iff_exists.mp (getElem?_isSome_of_lt h2)
      by_cases h3 : (splitOnSub ("/".data) p1).length ≥ 2
      · obtain ⟨x0, hx0⟩ := Option.isSome_iff_exists.mp
          (getElem?_isSome_of_lt (show 0 < (splitOnSub ("/".data) p1).length by omega))
        obtain ⟨x1, hx1⟩ := Option.isSome_iff_exists.mp
          (getElem?_isSome_of_lt (show 1 < (splitOnSub ("/".data) p1).length by omega))
        simp [deriveRepo, h1, h2, h3, hp1, hx0, hx1]
      · simp [deriveRepo, h1, h2, h3, hp1]
    · simp [deriveRepo, h1, h2]
  · simp [deriveRepo, h1]

/-- Every section of `parse_projects` is processed without an exception. -/
theorem processSection_isSome (sec : List Char) :
    (processSection sec).isSome = true := by
  unfold processSection
  apply foldlM_option_isSome
  intro b a _
  cases hef : entryFields a with
  | none => simp
  | some tud =>
      obtain ⟨title, url, desc⟩ := tud
      obtain ⟨rc, hrc⟩ := Option.isSome_iff_exists.mp (deriveRepo_isSome title url)
      obtain ⟨repo, creator⟩ := rc
      cases hct : classifyTag (sectionIsGithub sec) (sectionIsDocker sec) url with
      | none => simp [hrc, hct]
      | some tag => cases tag <;> simp [hrc, hct]

/-- `parse_videos` never raises. -/
theorem parse_videos_isSome (s : String) : (parse_videos s).isSome = true := by
  unfold parse_videos
  apply foldlM_option_isSome
  intro b a _
  obtain ⟨v, hv⟩ := Option.isSome_iff_exists.mp (videoOfEntry_isSome a)
  rw [hv]
  cases v <;> simp

/-- `parse_projects` never raises. -/
theorem parse_projects_isSome (s : String) : (parse_projects s).isSome = true := by
  unfold parse_projects
  rw [Option.isSome_map']
  apply foldlM_option_isSome
  intro b a _
  obtain ⟨gd, hgd⟩ := Option.isSome_iff_exists.mp (processSection_isSome a)
  rw [hgd]
  simp

/-- `parse_quiz` never raises: `parts[0]` always exists because a split is
never empty, and `parts[1]` is guarded by the length test. -/
theorem parse_quiz_isSome (s : String) : (parse_quiz s).isSome = true := by
  have h0 : 0 < (splitOnSub ("[EXERCISES]".data) s.data).length :=
    List.length_pos.mpr (splitOnSub_ne_nil _ _)
  obtain ⟨p0, hp0⟩ := Option.isSome_iff_exists.mp (getElem?_isSome_of_lt h0)
  by_cases hlen : (splitOnSub ("[EXERCISES]".data) s.data).length > 1
  · obtain ⟨p1, hp1⟩ := Option.isSome_iff_exists.mp (getElem?_isSome_of_lt hlen)
    simp [parse_quiz, hp0, hlen, hp1]
  · simp [parse_quiz, hp0, hlen]

/- ### Except-monad helpers for pipeline inversion -/

/-- Inversion of a successful bind. -/
theorem eb_ok_inv {ε α β : Type} {x : Except ε α} {f : α → Except ε β} {b : β}
    (h : Except.bind x f = Except.ok b) : ∃ a, x = Except.ok a ∧ f a = Except.ok b := by
  cases x with
  | error e => exact absurd h (by simp [Except.bind])
  | ok a => exact ⟨a, rfl, h⟩

/-- Inversion of a successfully evaluated help-type gate. -/
theorem gated_ok {ε : Type} {c : Prop} [Decidable c] {act : Except ε String} {v : String}
    (h : (if c then act else Except.ok "") = Except.ok v) :
    (c → act = Except.ok v) ∧ (¬c → v = "") := by
  by_cases hc : c
  · rw [if_pos hc] at h
    exact ⟨fun _ => h, fun hn => absurd hc hn⟩
  · rw [if_neg hc] at h
    exact ⟨fun hcc => absurd hcc hc, fun _ => (Except.ok.inj h).symm⟩

/-- Full inversion of a successful pipeline run: the resolved handle, the
facts of the taken ingestion branch, and the gating facts for the four
help-type agents. -/
theorem run_pipeline_ok_inv {Llm File : Type} {A : Agents Llm File}
    {subject chapter : String} {help_types : List String} {guide_mode : Bool}
    {uploaded_file : Option File} {engine_code : String} {r : PipelineOutput}
    (h : run_pipeline A subject chapter help_types guide_mode uploaded_file engine_code =
      Except.ok r) :
    ∃ llm, A.get_llm engine_code = Except.ok llm ∧
      ((∃ f, uploaded_file = some f ∧ r.a1_output = "" ∧ r.a2_output = "" ∧
          A.a3_adapter f = Except.ok r.a3_output) ∨
        (uploaded_file = none ∧ r.a3_output = "" ∧
          A.a1_everything subject chapter = Except.ok r.a1_output ∧
          A.a2_cleaner llm subject r.a1_output = Except.ok r.a2_output)) ∧
      ("Videos" ∈ help_types → A.a5_collector_videos subject chapter = Except.ok r.videos) ∧
      ("Videos" ∉ help_types → r.videos = "") ∧
      ("Related Projects" ∈ help_types →
        A.a6_relations_projects subject chapter = Except.ok r.projects) ∧
      ("Related Projects" ∉ help_types → r.projects = "") ∧
      ("Quizzes/Exercises" ∈ help_types →
        A.a7_ai_companion_quiz llm r.summary = Except.ok r.quizzes) ∧
      ("Quizzes/Exercises" ∉ help_types → r.quizzes = "") ∧
      ("Exams" ∈ help_types → A.a8_examiner subject chapter = Except.ok r.exams) ∧
      ("Exams" ∉ help_types → r.exams = "") := by
  unfold run_pipeline at h
  obtain ⟨llm, hll, h⟩ := eb_ok_inv h
  obtain ⟨tup, htup, h⟩ := eb_ok_inv h
  obtain ⟨a1o, a2o, a3o, ctx⟩ := tup
  dsimp only at h
  obtain ⟨summ, hsum, h⟩ := eb_ok_inv h
  obtain ⟨vids, hvid, h⟩ := eb_ok_inv h
  obtain ⟨projs, hproj, h⟩ := eb_ok_inv h
  obtain ⟨qzs, hquiz, h⟩ := eb_ok_inv h
  obtain ⟨exs, hexam, h⟩ := eb_ok_inv h
  have hr := (Except.ok.inj h).symm
  subst hr
  dsimp only
  obtain ⟨hv1, hv2⟩ := gated_ok hvid
  obtain ⟨hp1, hp2⟩ := gated_ok hproj
  obtain ⟨hq1, hq2⟩ := gated_ok hquiz
  obtain ⟨he1, he2⟩ := gated_ok hexam
  refine ⟨llm, hll, ?_, hv1, hv2, hp1, hp2, hq1, hq2, he1, he2⟩
  cases uploaded_file with
  | some f =>
      left
      obtain ⟨t, ha3, hpt⟩ := eb_ok_inv htup
      have := Except.ok.inj hpt
      refine ⟨f, rfl, ?_, ?_, ?_⟩
      · exact (congrArg Prod.fst this).symm
      · exact (congrArg (fun p => p.2.1) this).symm
      · rw [ha3]
        exact congrArg (fun p => Except.ok p.2.2.1) this
  | none =>
      right
      obtain ⟨t1, ha1, h1⟩ := eb_ok_inv htup
      obtain ⟨t2, ha2, h2⟩ := eb_ok_inv h1
      have := Except.ok.inj h2
      have ea1 : a1o = t1 := (congrArg Prod.fst this).symm
      have ea2 : a2o = t2 := (congrArg (fun p => p.2.1) this).symm
      have ea3 : a3o = "" := (congrArg (fun p => p.2.2.1) this).symm
      subst ea1
      subst ea2
      exact ⟨rfl, ea3, ha1, ha2⟩

/- ### Grading helpers -/

/-- The submit fold adds the fixed weight once per correctly answered
question, so it equals the correct count times the weight. -/
theorem submit_fold_score (answers : List (String × String)) (w : ℚ) :
    ∀ (l : List QuizQuestion) (s0 : ℚ),
      l.foldl (fun s q =>
          if dictGet answers (qKey q.number) = some (String.mk [q.correct]) then s + w
          else s) s0
        = s0 + (correctCount l answers : ℚ) * w := by
  intro l
  induction l with
  | nil => intro s0; simp [correctCount]
  | cons q qs ih =>
      intro s0
      by_cases hp : dictGet answers (qKey q.number) = some (String.mk [q.correct])
      · have hd : decide (dictGet answers (qKey q.number) = some (String.mk [q.correct]))
            = true := decide_eq_true hp
        rw [List.foldl_cons, if_pos hp, ih]
        unfold correctCount
        rw [List.countP_cons, hd]
        norm_num
        ring
      · have hd : decide (dictGet answers (qKey q.number) = some (String.mk [q.correct]))
            = false := decide_eq_false hp
        rw [List.foldl_cons, if_neg hp, ih]
        unfold correctCount
        rw [List.countP_cons, hd]
        norm_num

/-- Rounding zero yields zero. -/
theorem pyRound1_zero : pyRound1 0 = 0 := by
  norm_num [pyRound1, pyRoundHalfEven]

/- ### C2 -/

/-- C2: for every string input, including the empty string and strings with
none of the expected markers, each of `parse_videos`, `parse_projects` and
`parse_quiz` terminates without raising (every fallible operation succeeds)
and returns a result. -/
theorem parser_totality :
    (∀ s : String, (parse_videos s).isSome = true) ∧
    (∀ s : String, (parse_projects s).isSome = true) ∧
    (∀ s : String, (parse_quiz s).isSome = true) :=
  ⟨parse_videos_isSome, parse_projects_isSome, parse_quiz_isSome⟩

/- ### C9 -/

/-- C9: the videoId derivation maps `watch?v=` urls to the id up to the next
`&`, short-link urls to the id up to the next `?`, and everything else to the
empty string. -/
theorem video_id_extraction :
    extract_video_id ("https://youtube.com/watch?v=ABC123&t=5".data) = some ("ABC123".data) ∧
    extract_video_id ("https://youtu.be/XYZ789?foo=1".data) = some ("XYZ789".data) ∧
    (∀ url : List Char,
      containsSub ("youtube.com/watch?v=".data) url = false →
      containsSub ("youtu.be/".data) url = false →
      extract_video_id url = some []) := by
  refine ⟨by rfl, by rfl, ?_⟩
  intro url h1 h2
  simp [extract_video_id, h1, h2]

/-- Witness for C9: a url matching neither pattern yields the empty id. -/
theorem video_id_extraction_witness :
    extract_video_id ("https://example.com/a".data) = some [] :=
  video_id_extraction.2.2 ("https://example.com/a".data) (by rfl) (by rfl)

/- ### C1 -/

/-- C1: on a quiz with `T` questions of which exactly `N` have their correct
option stored in the answer map, submitting grades the quiz to
`round(N * 20 / T, 1)`; with `T = 0` the score is `0`. -/
theorem quiz_grading_total (questions : List QuizQuestion) (st : SessionState)
    (h : st.quiz_submitted = false) :
    (submit_click questions st).quiz_score =
      if 0 < questions.length then
        pyRound1 ((correctCount questions st.quiz_answers : ℚ) * 20 / questions.length)
      else 0 := by
  unfold submit_click
  rw [h]
  simp only [Bool.false_eq_true, if_false]
  rcases Nat.eq_zero_or_pos questions.length with h0 | h0
  · have hnil : questions = [] := List.length_eq_zero.mp h0
    subst hnil
    simpa using pyRound1_zero
  · rw [submit_fold_score st.quiz_answers (points_per_question questions.length) questions 0]
    rw [if_pos h0]
    have hppq : points_per_question questions.length = 20 / (questions.length : ℚ) := by
      simp [points_per_question, h0]
    rw [hppq, zero_add, ← mul_div_assoc]

/-- Witness for C1: one question, answered correctly, in a fresh session. -/
theorem quiz_grading_total_witness :
    (submit_click [oneQuestion] answeredState).quiz_score =
      if 0 < ([oneQuestion] : List QuizQuestion).length then
        pyRound1 ((correctCount [oneQuestion] answeredState.quiz_answers : ℚ) * 20 /
          ([oneQuestion] : List QuizQuestion).length)
      else 0 :=
  quiz_grading_total [oneQuestion] answeredState rfl

/- ### C10 -/

/-- C10: two answer maps that agree on the keys of the quiz's question numbers
grade to the same score; entries for other keys never influence the score. -/
theorem answer_map_noninterference (questions : List QuizQuestion)
    (a b : List (String × String)) (st : SessionState)
    (h : ∀ q ∈ questions, dictGet a (qKey q.number) = dictGet b (qKey q.number)) :
    (submit_click questions { st with quiz_answers := a }).quiz_score =
    (submit_click questions { st with quiz_answers := b }).quiz_score := by
  unfold submit_click
  cases hsub : st.quiz_submitted with
  | true => simp
  | false =>
      simp only [Bool.false_eq_true, if_false]
      rw [submit_fold_score a (points_per_question questions.length) questions 0,
        submit_fold_score b (points_per_question questions.length) questions 0]
      have hc : correctCount questions a = correctCount questions b := by
        unfold correctCount
        apply List.countP_congr
        intro q hq
        rw [h q hq]
      rw [hc]

/-- Witness for C10: an extra entry under an unused key does not change the
score. -/
theorem answer_map_noninterference_witness :
    (submit_click [oneQuestion]
      { initialSessionState with quiz_answers := [("q_1", "B"), ("q_99", "A")] }).quiz_score =
    (submit_click [oneQuestion]
      { initialSessionState with quiz_answers := [("q_1", "B")] }).quiz_score :=
  answer_map_noninterference [oneQuestion] [("q_1", "B"), ("q_99", "A")] [("q_1", "B")]
    initialSessionState (by decide)

/- ### C5 -/

/-- C5: when the pipeline run raises, the generate handler leaves every session
state field at its prior value and appends no history entry. -/
theorem pipeline_abort_atomic {Llm File : Type} (A : Agents Llm File)
    (subject chapter : String) (help_types : List String) (guide_mode : Bool)
    (uploaded_file : Option File) (engine_code engine_label : String)
    (api_ok : Bool) (now : String) (st : SessionState) (e : AgentErr)
    (h : run_pipeline A subject chapter help_types guide_mode uploaded_file engine_code =
      Except.error e) :
    generate_click A subject chapter help_types guide_mode uploaded_file engine_code
      engine_label api_ok now st = st := by
  unfold generate_click
  split
  · rfl
  · split
    · rfl
    · rw [h]

/-- Witness for C5: a failing agent set leaves the initial state untouched. -/
theorem pipeline_abort_atomic_witness :
    generate_click failAgents "Math" "Algebra" ["Quizzes/Exercises"] true none
      "deepseek" "Deepseek 3.1" true "2026-01-01 10:00:00" initialSessionState =
      initialSessionState :=
  pipeline_abort_atomic failAgents "Math" "Algebra" ["Quizzes/Exercises"] true none
    "deepseek" "Deepseek 3.1" true "2026-01-01 10:00:00" initialSessionState "boom" (by rfl)

/- ### C3 -/

/-- C3: with an uploaded document the search/clean fields stay empty and the
extracted-document field carries the ingestion output (hence is non-empty
whenever ingestion succeeds with non-empty text); without a document the
extracted field stays empty and the search/clean fields carry the search and
cleaner outputs.  Exactly one branch runs. -/
theorem branch_exclusivity {Llm File : Type} (A : Agents Llm File)
    (subject chapter : String) (help_types : List String) (guide_mode : Bool)
    (engine_code : String) :
    (∀ (f : File) (r : PipelineOutput),
        run_pipeline A subject chapter help_types guide_mode (some f) engine_code =
            Except.ok r →
          r.a1_output = "" ∧ r.a2_output = "" ∧
            A.a3_adapter f = Except.ok r.a3_output ∧
            (A.a3_adapter f ≠ Except.ok "" → r.a3_output ≠ "")) ∧
    (∀ r : PipelineOutput,
        run_pipeline A subject chapter help_types guide_mode none engine_code =
            Except.ok r →
          r.a3_output = "" ∧ A.a1_everything subject chapter = Except.ok r.a1_output ∧
            (A.a1_everything subject chapter ≠ Except.ok "" → r.a1_output ≠ "") ∧
            (∃ llm, A.get_llm engine_code = Except.ok llm ∧
              A.a2_cleaner llm subject r.a1_output = Except.ok r.a2_output ∧
              (A.a2_cleaner llm subject r.a1_output ≠ Except.ok "" → r.a2_output ≠ ""))) := by
  constructor
  · intro f r h
    obtain ⟨llm, hll, hbr, _⟩ := run_pipeline_ok_inv h
    rcases hbr with ⟨f', hf', h1, h2, h3⟩ | ⟨hn, _⟩
    · have hef : f = f' := Option.some.inj hf'
      subst hef
      refine ⟨h1, h2, h3, ?_⟩
      intro hne hempty
      exact hne (hempty ▸ h3)
    · exact absurd hn (by simp)
  · intro r h
    obtain ⟨llm, hll, hbr, _⟩ := run_pipeline_ok_inv h
    rcases hbr with ⟨f', hf', _⟩ | ⟨_, h3, h1, h2⟩
    · exact absurd hf' (by simp)
    · refine ⟨h3, h1, ?_, llm, hll, h2, ?_⟩
      · intro hne hempty
        exact hne (hempty ▸ h1)
      · intro hne hempty
        exact hne (hempty ▸ h2)

/-- Witness for C3: an upload run with succeeding agents has empty search
fields and carries the ingestion output. -/
theorem branch_exclusivity_witness :
    uploadRunOutput.a1_output = "" ∧ uploadRunOutput.a2_output = "" ∧
      okAgents.a3_adapter () = Except.ok uploadRunOutput.a3_output ∧
      (okAgents.a3_adapter () ≠ Except.ok "" → uploadRunOutput.a3_output ≠ "") :=
  (branch_exclusivity okAgents "Math" "Algebra" [] false "deepseek").1 ()
    uploadRunOutput (by rfl)

/- ### C4 -/

/-- Counterexample to C4 as stated: with `Videos` selected but the video
agent returning the empty string, the result's videos field is the empty
string although the help type was present, so "empty iff absent" fails. -/
theorem help_type_gating_cex :
    run_pipeline okAgents "Math" "Algebra" ["Videos"] false none "deepseek" =
      Except.ok videoRunOutput ∧
    "Videos" ∈ ["Videos"] ∧ videoRunOutput.videos = "" :=
  ⟨by rfl, by simp, rfl⟩

/-- C4 (amended): a result field is the empty string iff its help type was
absent from the selection or the corresponding agent returned the empty
string; in particular an absent help type always leaves the field empty. -/
theorem help_type_gating {Llm File : Type} (A : Agents Llm File)
    (subject chapter : String) (help_types : List String) (guide_mode : Bool)
    (uploaded_file : Option File) (engine_code : String) (r : PipelineOutput)
    (h : run_pipeline A subject chapter help_types guide_mode uploaded_file engine_code =
      Except.ok r) :
    (r.videos = "" ↔
      ("Videos" ∉ help_types ∨ A.a5_collector_videos subject chapter = Except.ok "")) ∧
    (r.projects = "" ↔
      ("Related Projects" ∉ help_types ∨
        A.a6_relations_projects subject chapter = Except.ok "")) ∧
    (r.quizzes = "" ↔
      ("Quizzes/Exercises" ∉ help_types ∨
        ∃ llm, A.get_llm engine_code = Except.ok llm ∧
          A.a7_ai_companion_quiz llm r.summary = Except.ok "")) ∧
    (r.exams = "" ↔
      ("Exams" ∉ help_types ∨ A.a8_examiner subject chapter = Except.ok "")) := by
  obtain ⟨llm, hll, _, hv1, hv2, hp1, hp2, hq1, hq2, he1, he2⟩ := run_pipeline_ok_inv h
  refine ⟨⟨?_, ?_⟩, ⟨?_, ?_⟩, ⟨?_, ?_⟩, ⟨?_, ?_⟩⟩
  · intro he
    by_cases hm : "Videos" ∈ help_types
    · exact Or.inr (he ▸ hv1 hm)
    · exact Or.inl hm
  · rintro (hm | hok)
    · exact hv2 hm
    · by_cases hm : "Videos" ∈ help_types
      · exact Except.ok.inj ((hv1 hm).symm.trans hok)
      · exact hv2 hm
  · intro he
    by_cases hm : "Related Projects" ∈ help_types
    · exact Or.inr (he ▸ hp1 hm)
    · exact Or.inl hm
  · rintro (hm | hok)
    · exact hp2 hm
    · by_cases hm : "Related Projects" ∈ help_types
      · exact Except.ok.inj ((hp1 hm).symm.trans hok)
      · exact hp2 hm
  · intro he
    by_cases hm : "Quizzes/Exercises" ∈ help_types
    · exact Or.inr ⟨llm, hll, he ▸ hq1 hm⟩
    · exact Or.inl hm
  · rintro (hm | ⟨llm', hll', hok⟩)
    · exact hq2 hm
    · by_cases hm : "Quizzes/Exercises" ∈ help_types
      · have hl : llm' = llm := by
          have := hll.symm.trans hll'
          exact (Except.ok.inj this).symm
        subst hl
        exact Except.ok.inj ((hq1 hm).symm.trans hok)
      · exact hq2 hm
  · intro he
    by_cases hm : "Exams" ∈ help_types
    · exact Or.inr (he ▸ he1 hm)
    · exact Or.inl hm
  · rintro (hm | hok)
    · exact he2 hm
    · by_cases hm : "Exams" ∈ help_types
      · exact Except.ok.inj ((he1 hm).symm.trans hok)
      · exact he2 hm

/-- Witness for C4 (amended): the videos iff evaluated on a concrete run. -/
theorem help_type_gating_witness :
    videoRunOutput.videos = "" ↔
      ("Videos" ∉ (["Videos"] : List String) ∨
        okAgents.a5_collector_videos "Math" "Algebra" = Except.ok "") :=
  (help_type_gating okAgents "Math" "Algebra" ["Videos"] false none "deepseek"
    videoRunOutput (by rfl)).1

/- ### C7 -/

/-- A matched question's number is the value of a digit run, hence
non-negative. -/
theorem matchQuestionAt_number_nonneg {s : List Char} {q : QuizQuestion}
    {rem : List Char} (h : matchQuestionAt s = some (q, rem)) : 0 ≤ q.number := by
  unfold matchQuestionAt at h
  repeat' split at h
  all_goals try exact Option.noConfusion h
  injection h with h1
  injection h1 with h2 h3
  subst h2
  exact Int.natCast_nonneg _

/-- Every question produced by the findall scan has a non-negative number. -/
theorem scanLoop_questions_nonneg :
    ∀ (fuel : ℕ) (s : List Char) (q : QuizQuestion),
      q ∈ scanLoop matchQuestionAt fuel s → 0 ≤ q.number := by
  intro fuel
  induction fuel with
  | zero => intro s q hq; simp [scanLoop] at hq
  | succ n ih =>
      intro s q hq
      cases s with
      | nil => simp [scanLoop] at hq
      | cons c rest =>
          rw [scanLoop] at hq
          cases hm : matchQuestionAt (c :: rest) with
          | some p =>
              obtain ⟨q0, rem⟩ := p
              rw [hm] at hq
              rcases List.mem_cons.mp hq with h1 | h2
              · exact h1 ▸ matchQuestionAt_number_nonneg hm
              · exact ih rem q h2
          | none =>
              rw [hm] at hq
              exact ih rest q hq

set_option maxRecDepth 8000 in
/-- Counterexample to C7 as stated: a syntactically well-formed quiz text
whose question numbers come out as `[2, 0, 0]` — not positive (0 occurs), not
unique (0 repeats), and not ascending (2 precedes 0). -/
theorem quiz_number_invariant_cex :
    (parse_quiz ("Q2: a\nA)1\nB)2\nC)3\nD)4\nCorrect answer: A\nQ0: b\nA)1\nB)2\nC)3\nD)4\nCorrect answer: B\nQ0: c\nA)1\nB)2\nC)3\nD)4\nCorrect answer: C")).map
        (fun qd => qd.questions.map QuizQuestion.number) = some [2, 0, 0] ∧
    ¬((∀ n ∈ [(2 : ℤ), 0, 0], 0 < n) ∧
      ([(2 : ℤ), 0, 0]).Pairwise (fun m n => m ≠ n) ∧
      ([(2 : ℤ), 0, 0]).Chain' (fun m n => m < n)) := by
  constructor
  · rfl
  · decide

/-- C7 (amended): every question number produced by `parse_quiz` is a
non-negative integer parsed from the matched digit run; questions are kept in
source-match order, so numbers need not be positive, unique or ascending. -/
theorem quiz_number_invariant (s : String) (qd : QuizData)
    (h : parse_quiz s = some qd) : ∀ q ∈ qd.questions, 0 ≤ q.number := by
  simp only [parse_quiz] at h
  split at h
  · exact absurd h (by simp)
  · split at h
    · exact absurd h (by simp)
    · have hqd := Option.some.inj h
      subst hqd
      intro q hq
      exact scanLoop_questions_nonneg _ _ q hq

set_option maxRecDepth 8000 in
/-- Witness for C7 (amended): the question of the round-trip quiz example. -/
theorem quiz_number_invariant_witness :
    0 ≤ (QuizQuestion.mk 1 ("What is 2+2?".data) ("3".data) ("4".data) ("5".data)
      ("6".data) 'B').number :=
  quiz_number_invariant
    "[QUIZ]\nQ1: What is 2+2?\nA)3\nB)4\nC)5\nD)6\nCorrect answer: B\n[EXERCISES]\nE1: Solve 3+3."
    (QuizData.mk
      [⟨1, "What is 2+2?".data, "3".data, "4".data, "5".data, "6".data, 'B'⟩]
      [⟨1, "Solve 3+3.".data⟩])
    (by rfl)
    (QuizQuestion.mk 1 ("What is 2+2?".data) ("3".data) ("4".data) ("5".data)
      ("6".data) 'B')
    (by simp)

/- ### C8 -/

/-- The video-entry fold appends exactly one record per block with at least
two lines, whose title/url are the block's first and second line, trimmed. -/
theorem video_fold_shape :
    ∀ (entries : List (List Char)) (acc vs : List PVideo),
      List.foldlM (fun acc entry =>
          match videoOfEntry entry with
          | none => none
          | some none => some acc
          | some (some v) => some (acc ++ [v])) acc entries = some vs →
      vs.map (fun v => (v.title, v.url)) =
        acc.map (fun v => (v.title, v.url)) ++ entries.filterMap entryTitleUrl := by
  intro entries
  induction entries with
  | nil =>
      intro acc vs h
      rw [List.foldlM_nil] at h
      have hacc : acc = vs := Option.some.inj h
      subst hacc
      simp
  | cons e es ih =>
      intro acc vs h
      rw [List.foldlM_cons] at h
      cases hl : splitOnSub ("\n".data) (pyStrip e) with
      | nil =>
          have hve : videoOfEntry e = some none := by simp [videoOfEntry, hl]
          have hte : entryTitleUrl e = none := by simp [entryTitleUrl, hl]
          simp only [hve, Option.some_bind] at h
          simp only [List.filterMap_cons, hte]
          exact ih acc vs h
      | cons l0 tl =>
          cases tl with
          | nil =>
              have hve : videoOfEntry e = some none := by simp [videoOfEntry, hl]
              have hte : entryTitleUrl e = none := by simp [entryTitleUrl, hl]
              simp only [hve, Option.some_bind] at h
              simp only [List.filterMap_cons, hte]
              exact ih acc vs h
          | cons l1 rest =>
              obtain ⟨vid, hvid⟩ :=
                Option.isSome_iff_exists.mp (extract_video_id_isSome (pyStrip l1))
              have hve : videoOfEntry e =
                  some (some ⟨pyStrip l0, pyStrip l1, vid⟩) := by
                simp [videoOfEntry, hl, hvid]
              have hte : entryTitleUrl e = some (pyStrip l0, pyStrip l1) := by
                simp [entryTitleUrl, hl]
              simp only [hve] at h
              have h2 : List.foldlM (fun acc entry =>
                  match videoOfEntry entry with
                  | none => none
                  | some none => some acc
                  | some (some v) => some (acc ++ [v]))
                  (acc ++ [⟨pyStrip l0, pyStrip l1, vid⟩]) es = some vs := h
              rw [ih (acc ++ [⟨pyStrip l0, pyStrip l1, vid⟩]) vs h2]
              simp [List.filterMap_cons, hte]

/-- Counterexample to C8 as stated: in the block `[1]\nTitle\n\n<url>` the
second line is empty, so the parsed url is `""` although the second non-empty
line is the url the claim predicts. -/
theorem video_entry_shape_cex :
    (parse_videos "[1]\nTitle\n\nhttps://example.com/x").map
        (fun vs => vs.map PVideo.url) = some [[]] ∧
    ((splitBrNum ("[1]\nTitle\n\nhttps://example.com/x").data).drop 1).map
        secondNonEmptyLine = [some ("https://example.com/x".data)] ∧
    ("https://example.com/x".data : List Char) ≠ [] :=
  ⟨by rfl, by rfl, by decide⟩

/-- C8 (amended): for every bracket-delimited block with at least two lines,
`parse_videos` emits one record whose title is the block's first line and
whose url is the block's second line (both trimmed, the second line may be
empty); blocks with fewer than two lines produce no record. -/
theorem video_entry_shape (s : String) (vs : List PVideo)
    (h : parse_videos s = some vs) :
    vs.map (fun v => (v.title, v.url)) =
      ((splitBrNum s.data).drop 1).filterMap entryTitleUrl := by
  unfold parse_videos at h
  simpa using video_fold_shape _ [] vs h

/-- Witness for C8 (amended): a two-line block parses to its first and second
line. -/
theorem video_entry_shape_witness :
    ([⟨"T".data, "https://a.example/x".data, []⟩] : List PVideo).map
        (fun v => (v.title, v.url)) =
      ((splitBrNum ("[1]\nT\nhttps://a.example/x").data).drop 1).filterMap
        entryTitleUrl :=
  video_entry_shape "[1]\nT\nhttps://a.example/x"
    [⟨"T".data, "https://a.example/x".data, []⟩] (by rfl)

/- ### C6 -/

set_option maxRecDepth 8000 in
/-- Counterexample to C6 as stated: an entry whose URL contains
`hub.docker.com` (and not `github.com`), inside a section labeled `GitHub`, is
placed in the github list and the docker list stays empty — the URL does not
win over the section label. -/
theorem project_classification_cex :
    (parse_projects "GitHub\n[1]\nMyProj\nURL: https://hub.docker.com/r/x\nNote: d").map
        (fun r => (r.github.map ProjectEntry.url, r.docker.length)) =
      some ([("https://hub.docker.com/r/x".data)], 0) ∧
    containsSub ("hub.docker.com".data) ("https://hub.docker.com/r/x".data) = true ∧
    containsSub ("github.com".data) ("https://hub.docker.com/r/x".data) = false ∧
    containsSub ("GitHub".data)
      ("GitHub\n[1]\nMyProj\nURL: https://hub.docker.com/r/x\nNote: d".data) = true :=
  ⟨by rfl, by rfl, by rfl, by rfl⟩

/-- C6 (amended): an entry is classified github when the section carries a
github label or the url contains `github.com`; it is classified docker only
otherwise, when the section carries a docker label or the url contains
`hub.docker.com`.  So a `github.com` url wins in a docker-labeled section,
but a `hub.docker.com` url in a github-labeled section still goes to github:
github takes precedence, the URL host does not override a github label. -/
theorem project_classification (sec url : List Char) :
    (containsSub ("github.com".data) url = true →
      classifyTag (sectionIsGithub sec) (sectionIsDocker sec) url = some true) ∧
    (sectionIsGithub sec = true →
      classifyTag (sectionIsGithub sec) (sectionIsDocker sec) url = some true) ∧
    (sectionIsGithub sec = false → containsSub ("github.com".data) url = false →
      (sectionIsDocker sec = true ∨ containsSub ("hub.docker.com".data) url = true) →
      classifyTag (sectionIsGithub sec) (sectionIsDocker sec) url = some false) := by
  refine ⟨?_, ?_, ?_⟩
  · intro h
    simp [classifyTag, h]
  · intro h
    simp [classifyTag, h]
  · intro h1 h2 h3
    rcases h3 with h3 | h3 <;> simp [classifyTag, h1, h2, h3]

/-- Witness for C6 (amended): the docker-hosted entry of the counterexample
section is classified github because of the section label. -/
theorem project_classification_witness :
    classifyTag
      (sectionIsGithub ("GitHub\n[1]\nMyProj\nURL: https://hub.docker.com/r/x\nNote: d".data))
      (sectionIsDocker ("GitHub\n[1]\nMyProj\nURL: https://hub.docker.com/r/x\nNote: d".data))
      ("https://hub.docker.com/r/x".data) = some true :=
  (project_classification
    ("GitHub\n[1]\nMyProj\nURL: https://hub.docker.com/r/x\nNote: d".data)
    ("https://hub.docker.com/r/x".data)).2.1 (by rfl)
